import Mathlib

/-!
# Verification of the WeirdSynths ingestion / analysis core

A shallow embedding of the packet decoders (`parsePacket`, `parseKintPacket`,
`parseSkelPacket`), the snapshot double-buffer, the staleness/smoothing layer
of the NERVE and SKULL modules, the YIN pitch estimator and the onset
detector, together with theorems about the frozen behavioural claims.

Machine integers are modelled as `Nat`/`Int`; IEEE-754 binary32 wire values
are decoded exactly into an extended value type `F32` (finite values as exact
rationals, plus infinities and NaN); float arithmetic inside the DSP code is
idealised as exact rational arithmetic.
-/

/-- An IEEE-754 binary32 value as seen by the decoders: NaN, a signed
infinity (`true` = negative), or a finite value represented exactly as a
rational number. -/
inductive F32 where
  | nan : F32
  | inf : Bool → F32
  | fin : ℚ → F32
deriving DecidableEq

/-- Exact decoding of four little-endian bytes as an IEEE-754 binary32
value (sign / 8-bit exponent / 23-bit mantissa, with subnormals, infinities
and NaN). -/
def decodeF32le (b0 b1 b2 b3 : Nat) : F32 :=
  let bits : Nat := b0 + 256 * b1 + 65536 * b2 + 16777216 * b3
  let sign : Nat := bits / 2 ^ 31 % 2
  let e : Nat := bits / 2 ^ 23 % 256
  let m : Nat := bits % 2 ^ 23
  if e = 255 then
    if m = 0 then .inf (sign = 1) else .nan
  else if e = 0 then
    .fin ((if sign = 1 then (-1 : ℚ) else 1) * ((m : ℚ) / 2 ^ 23) * (2 : ℚ) ^ (-126 : ℤ))
  else
    .fin ((if sign = 1 then (-1 : ℚ) else 1) * (1 + (m : ℚ) / 2 ^ 23) * (2 : ℚ) ^ ((e : ℤ) - 127))

/-- `rack::math::clamp(x, a, b) = std::fmax(std::fmin(x, b), a)` for finite
bounds `a ≤ b`, with the C `fmin`/`fmax` NaN rules unfolded per case:
`fmin(NaN, b) = b` and `fmin(+inf, b) = b`, so those inputs clamp to
`max a b`; `fmin(-inf, b) = -inf` and `fmax(-inf, a) = a`; a finite input
gives the ordinary `max (min q b) a`. -/
def rackClamp (x : F32) (a b : ℚ) : ℚ :=
  match x with
  | .nan => max a b
  | .inf false => max a b
  | .inf true => a
  | .fin q => max (min q b) a

/-- The C comparison `x > c` on a float `x` against a finite constant:
false when `x` is NaN, true for `+inf`, false for `-inf`. -/
def F32.gtQ (x : F32) (c : ℚ) : Bool :=
  match x with
  | .nan => false
  | .inf s => !s
  | .fin q => decide (c < q)

/-- Read one byte of the datagram (`buf[i]`); the parsers only evaluate this
at indices their length guards have already checked. -/
def byteAt (buf : List Nat) (i : Nat) : Nat := buf.getD i 0

/-- `memcpy` of a little-endian `uint16` from `buf + i`. -/
def readU16 (buf : List Nat) (i : Nat) : Nat :=
  byteAt buf i + 256 * byteAt buf (i + 1)

/-- `memcpy` of a little-endian `uint64` from `buf + i`. -/
def readU64 (buf : List Nat) (i : Nat) : Nat :=
  byteAt buf i + 256 * byteAt buf (i + 1) + 256 ^ 2 * byteAt buf (i + 2)
    + 256 ^ 3 * byteAt buf (i + 3) + 256 ^ 4 * byteAt buf (i + 4)
    + 256 ^ 5 * byteAt buf (i + 5) + 256 ^ 6 * byteAt buf (i + 6)
    + 256 ^ 7 * byteAt buf (i + 7)

/-- `memcpy` of a little-endian `float` from `buf + i`. -/
def readF32 (buf : List Nat) (i : Nat) : F32 :=
  decodeF32le (byteAt buf i) (byteAt buf (i + 1)) (byteAt buf (i + 2)) (byteAt buf (i + 3))

/-! ## Face data (NerveUDP.hpp) -/

/-- `nerve::FaceData`, with the float channels carried as exact rationals
(every stored channel is the output of `rack::math::clamp` or of the blink
threshold, hence finite). -/
structure FaceData where
  headX : ℚ := 0
  headY : ℚ := 0
  headZ : ℚ := 0
  headDist : ℚ := 0
  leftEye : ℚ := 0
  rightEye : ℚ := 0
  gazeX : ℚ := 0
  gazeY : ℚ := 0
  mouthW : ℚ := 0
  mouthH : ℚ := 0
  jaw : ℚ := 0
  lips : ℚ := 0
  browL : ℚ := 0
  browR : ℚ := 0
  blinkL : ℚ := 0
  blinkR : ℚ := 0
  expression : ℚ := 0
  tongue : ℚ := 0
  browInnerUp : ℚ := 0
  browDownL : ℚ := 0
  browDownR : ℚ := 0
  timestamp : Nat := 0
  faceCount : Nat := 0
  valid : Bool := false
deriving DecidableEq

instance : Inhabited FaceData := ⟨{}⟩

def NERVE_HEADER_SIZE : Nat := 8
def NERVE_V1_PACKET_SIZE : Nat := 84
def NERVE_V2_PACKET_SIZE : Nat := 100

/-- `memcmp(buf, NERVE_MAGIC, 4) == 0` with `NERVE_MAGIC = "NERV"`. -/
def nerveMagicOk (buf : List Nat) : Prop :=
  byteAt buf 0 = 78 ∧ byteAt buf 1 = 69 ∧ byteAt buf 2 = 82 ∧ byteAt buf 3 = 86

instance (buf : List Nat) : Decidable (nerveMagicOk buf) := by
  unfold nerveMagicOk; infer_instance

/-- The body of `parsePacket` after all four guards have passed: decode the
17 v1 floats (clamped; blink channels thresholded at 0.5), then either the
4 extra v2 floats and the v2 timestamp (when `version >= 2` and the payload
is at least `NERVE_V2_PACKET_SIZE`) or zeroed v2 fields and the v1
timestamp. `rf off` is `readFloat(off)`, i.e. the float at
`buf + NERVE_HEADER_SIZE + off`. -/
def parseBody (buf : List Nat) (out : FaceData) : FaceData :=
  let len := buf.length
  let version := readU16 buf 4
  let faceCount := readU16 buf 6
  let rf := fun off => readF32 buf (NERVE_HEADER_SIZE + off)
  let d : FaceData := { out with
    headX := rackClamp (rf 0) (-1) 1
    headY := rackClamp (rf 4) (-1) 1
    headZ := rackClamp (rf 8) (-1) 1
    headDist := rackClamp (rf 12) 0 1
    leftEye := rackClamp (rf 16) 0 1
    rightEye := rackClamp (rf 20) 0 1
    gazeX := rackClamp (rf 24) (-1) 1
    gazeY := rackClamp (rf 28) (-1) 1
    mouthW := rackClamp (rf 32) 0 1
    mouthH := rackClamp (rf 36) 0 1
    jaw := rackClamp (rf 40) 0 1
    lips := rackClamp (rf 44) 0 1
    browL := rackClamp (rf 48) 0 1
    browR := rackClamp (rf 52) 0 1
    blinkL := if (rf 56).gtQ (1/2) then 1 else 0
    blinkR := if (rf 60).gtQ (1/2) then 1 else 0
    expression := rackClamp (rf 64) 0 1 }
  let d : FaceData :=
    if 2 ≤ version ∧ NERVE_V2_PACKET_SIZE ≤ len then
      { d with
        tongue := rackClamp (rf 68) 0 1
        browInnerUp := rackClamp (rf 72) 0 1
        browDownL := rackClamp (rf 76) 0 1
        browDownR := rackClamp (rf 80) 0 1
        timestamp := readU64 buf (NERVE_HEADER_SIZE + 84) }
    else
      { d with
        tongue := 0
        browInnerUp := 0
        browDownL := 0
        browDownR := 0
        timestamp := readU64 buf (NERVE_HEADER_SIZE + 68) }
  { d with faceCount := faceCount, valid := true }

/-- `nerve::parsePacket(buf, len, out)`: the four guards (length, magic,
version, face count) reject before anything is written to `out`; the state
passing makes the C by-reference mutation of `out` explicit. -/
def parsePacket (buf : List Nat) (out : FaceData) : Bool × FaceData :=
  if buf.length < NERVE_V1_PACKET_SIZE then (false, out)
  else if ¬ nerveMagicOk buf then (false, out)
  else if readU16 buf 4 < 1 ∨ 2 < readU16 buf 4 then (false, out)
  else if readU16 buf 6 < 1 ∨ 4 < readU16 buf 6 then (false, out)
  else (true, parseBody buf out)

/-! ## The snapshot double-buffer, sequential denotation

`nerve::FaceDataBuffer` (and the generic `depth::DoubleBuffer<T>`): two
slots, an active-slot index and a version counter.  This is the sequential
(single-thread) denotation used by the receiver/consumer models; the
fine-grained interleaved model used for the atomicity claim appears further
below. -/

structure FaceDataBuffer where
  buf0 : FaceData := {}
  buf1 : FaceData := {}
  active : Nat := 0
  version : Nat := 0
deriving DecidableEq

instance : Inhabited FaceDataBuffer := ⟨{}⟩

/-- `write`: copy into the inactive slot, flip the active index, bump the
version. -/
def FaceDataBuffer.write (c : FaceDataBuffer) (d : FaceData) : FaceDataBuffer :=
  let inactive := 1 - c.active
  { buf0 := if inactive = 0 then d else c.buf0
    buf1 := if inactive = 0 then c.buf1 else d
    active := inactive
    version := c.version + 1 }

/-- `read`: return the active slot. -/
def FaceDataBuffer.read (c : FaceDataBuffer) : FaceData :=
  if c.active = 0 then c.buf0 else c.buf1

/-- One iteration of the body of `UDPListener::run` for a received datagram:
parse into a fresh default-initialised `FaceData`; on success stamp a zero
timestamp with the arrival time and publish; on failure the channel is left
untouched. -/
def receiverStep (chan : FaceDataBuffer) (buf : List Nat) (now : Nat) : FaceDataBuffer :=
  let r := parsePacket buf default
  if r.1 then
    let d := r.2
    let d := if d.timestamp = 0 then { d with timestamp := now } else d
    chan.write d
  else chan

/-! ## Depth and skeleton data (DepthUDP.hpp) -/

/-- `depth::DepthCVs`: the 8 normalized CV outputs. -/
structure DepthCVs where
  dist : ℚ := 0
  motion : ℚ := 0
  cntX : ℚ := 0
  cntY : ℚ := 0
  area : ℚ := 0
  depthL : ℚ := 0
  depthR : ℚ := 0
  entropy : ℚ := 0
deriving DecidableEq

/-- `depth::DepthData` (the `KinectSource` enum is carried as its `uint8`
value, 255 = Unknown). -/
structure DepthData where
  cvs : DepthCVs := {}
  source : Nat := 255
  bodyCount : Nat := 0
  timestamp : Nat := 0
  valid : Bool := false
deriving DecidableEq

instance : Inhabited DepthData := ⟨{}⟩

structure JointXYZ where
  x : ℚ := 0
  y : ℚ := 0
  z : ℚ := 0
deriving DecidableEq

instance : Inhabited JointXYZ := ⟨{}⟩

def MAX_SKEL_JOINTS : Nat := 32

/-- `depth::SkeletonBody`: the fixed 32-entry joint array is modelled as a
list of length 32 (`JointXYZ joints[MAX_SKEL_JOINTS] = {}`). -/
structure SkeletonBody where
  bodyIndex : Nat := 0
  jointCount : Nat := 0
  joints : List JointXYZ := List.replicate MAX_SKEL_JOINTS {}
  valid : Bool := false
deriving DecidableEq

instance : Inhabited SkeletonBody := ⟨{}⟩

def KINT_PACKET_SIZE : Nat := 48
def SKEL_MIN_SIZE : Nat := 16

/-- `memcmp(buf, KINT_MAGIC, 4) == 0` with `KINT_MAGIC = "KINT"`. -/
def kintMagicOk (buf : List Nat) : Prop :=
  byteAt buf 0 = 75 ∧ byteAt buf 1 = 73 ∧ byteAt buf 2 = 78 ∧ byteAt buf 3 = 84

instance (buf : List Nat) : Decidable (kintMagicOk buf) := by
  unfold kintMagicOk; infer_instance

/-- `memcmp(buf, SKEL_MAGIC, 4) == 0` with `SKEL_MAGIC = "SKEL"`. -/
def skelMagicOk (buf : List Nat) : Prop :=
  byteAt buf 0 = 83 ∧ byteAt buf 1 = 75 ∧ byteAt buf 2 = 69 ∧ byteAt buf 3 = 76

instance (buf : List Nat) : Decidable (skelMagicOk buf) := by
  unfold skelMagicOk; infer_instance

/-- `depth::parseKintPacket`: 48-byte KINT v1 packet; `rf off` reads the
float at `buf + 8 + off`; every CV is clamped to its documented range. -/
def parseKintPacket (buf : List Nat) (out : DepthData) : Bool × DepthData :=
  if buf.length < KINT_PACKET_SIZE then (false, out)
  else if ¬ kintMagicOk buf then (false, out)
  else if readU16 buf 4 ≠ 1 then (false, out)
  else
    let rf := fun off => readF32 buf (8 + off)
    (true, { out with
      source := byteAt buf 6
      bodyCount := byteAt buf 7
      cvs := {
        dist := rackClamp (rf 0) 0 1
        motion := rackClamp (rf 4) 0 1
        cntX := rackClamp (rf 8) (-1) 1
        cntY := rackClamp (rf 12) (-1) 1
        area := rackClamp (rf 16) 0 1
        depthL := rackClamp (rf 20) 0 1
        depthR := rackClamp (rf 24) 0 1
        entropy := rackClamp (rf 28) 0 1 }
      timestamp := readU64 buf 40
      valid := true })

/-- One joint as read and clamped by the loop body of `parseSkelPacket`:
three floats at `buf + 8 + i*12`, each clamped to −1..1. -/
def readJoint (buf : List Nat) (i : Nat) : JointXYZ :=
  let base := 8 + i * 12
  { x := rackClamp (readF32 buf base) (-1) 1
    y := rackClamp (readF32 buf (base + 4)) (-1) 1
    z := rackClamp (readF32 buf (base + 8)) (-1) 1 }

/-- `int jc = std::min<int>(out.jointCount, MAX_SKEL_JOINTS)` of
`parseSkelPacket`, where `out.jointCount` has just been set to `buf[7]`. -/
def skelJointCountClamped (buf : List Nat) : Nat :=
  min (byteAt buf 7) MAX_SKEL_JOINTS

/-- `int expected = 8 + jc * 12 + 8` of `parseSkelPacket` (header + joints
+ timestamp), computed from the clamped joint count. -/
def skelExpectedLen (buf : List Nat) : Nat :=
  8 + skelJointCountClamped buf * 12 + 8

/-- `depth::parseSkelPacket`: after the header guards, `bodyIndex` and
`jointCount` are written to `out`, the joint count is clamped to
`MAX_SKEL_JOINTS` before computing the expected length, and on success the
first `jc` joints are overwritten in place.  As in the C code, the
length-consistency failure happens after `bodyIndex`/`jointCount` were
already stored in `out` (hence the mutated record in that `false` result). -/
def parseSkelPacket (buf : List Nat) (out : SkeletonBody) : Bool × SkeletonBody :=
  if buf.length < SKEL_MIN_SIZE then (false, out)
  else if ¬ skelMagicOk buf then (false, out)
  else if readU16 buf 4 ≠ 1 then (false, out)
  else if buf.length < skelExpectedLen buf then
    (false, { out with bodyIndex := byteAt buf 6, jointCount := byteAt buf 7 })
  else
    (true, { out with
      bodyIndex := byteAt buf 6
      jointCount := byteAt buf 7
      joints := (List.range (skelJointCountClamped buf)).foldl
        (fun js i => js.set i (readJoint buf i)) out.joints
      valid := true })

/-! ## Staleness tracking (NerveSmoothing.hpp) -/

/-- `nerve::TimeoutTracker`; note the member initialisers
`elapsed = 999.f`, `timeoutSeconds = 0.5f`. -/
structure TimeoutTracker where
  elapsed : ℚ := 999
  timeoutSeconds : ℚ := 1/2
deriving DecidableEq

/-- A freshly constructed tracker (the C++ default-initialised object). -/
def TimeoutTracker.init : TimeoutTracker := {}

def TimeoutTracker.setTimeoutSeconds (t : TimeoutTracker) (s : ℚ) : TimeoutTracker :=
  { t with timeoutSeconds := s }

def TimeoutTracker.tick (t : TimeoutTracker) (sampleTime : ℚ) : TimeoutTracker :=
  { t with elapsed := t.elapsed + sampleTime }

def TimeoutTracker.reset (t : TimeoutTracker) : TimeoutTracker :=
  { t with elapsed := 0 }

def TimeoutTracker.isTimedOut (t : TimeoutTracker) : Bool :=
  decide (t.timeoutSeconds < t.elapsed)

/-! ## The NERVE and SKULL per-tick staleness logic -/

/-- The per-module state touched by the staleness logic of
`Nerve::process` / `Skull::process`. -/
structure ModuleStaleState where
  lastSeenVersion : Nat := 0
  timeout : TimeoutTracker := {}
deriving DecidableEq

/-- The version-change / staleness prelude shared by `Nerve::process` and
`Skull::process` (reset the tracker when the channel version moved, tick it,
then `faceValid = face.valid && !timeout.isTimedOut()`). -/
def staleCheck (chan : FaceDataBuffer) (s : ModuleStaleState) (sampleTime : ℚ) :
    ModuleStaleState × Bool :=
  let currentVersion := chan.version
  let s := if currentVersion ≠ s.lastSeenVersion then
      { lastSeenVersion := currentVersion, timeout := s.timeout.reset }
    else s
  let s := { s with timeout := s.timeout.tick sampleTime }
  (s, chan.read.valid && !s.timeout.isTimedOut)

/-- The 20 per-channel slew targets computed by `Nerve::process`
(lines 182-209), in `OutputId` order `HEAD_X .. BROW_DOWN_R`; when the face
is invalid or stale every target is 0. -/
def nerveTargets (face : FaceData) (faceValid : Bool) : List ℚ :=
  if faceValid then
    [face.headX * 5, face.headY * 5, face.headZ * 5, face.headDist * 10,
     face.leftEye * 10, face.rightEye * 10, face.gazeX * 5, face.gazeY * 5,
     face.mouthW * 10, face.mouthH * 10, face.jaw * 10, face.lips * 10,
     face.browL * 10, face.browR * 10, 0, face.expression * 10,
     face.tongue * 10, face.browInnerUp * 10, face.browDownL * 10, face.browDownR * 10]
  else
    List.replicate 20 0

/-- One tick of the `Nerve::process` staleness/target logic: returns the
updated state, the `faceValid` flag and the 20 slew targets. -/
def nerveTick (chan : FaceDataBuffer) (s : ModuleStaleState) (sampleTime : ℚ) :
    ModuleStaleState × Bool × List ℚ :=
  let (s, faceValid) := staleCheck chan s sampleTime
  (s, faceValid, nerveTargets chan.read faceValid)

/-- The 9 face values handed to the drum engine by `Skull::process`
(blinkL, blinkR, jaw, browL, browR, mouthW, headX, headY, expression); when
the face is invalid or stale these are 0 except `expression`, whose neutral
value is 0.5. -/
def skullFaceVals (face : FaceData) (faceValid : Bool) : List ℚ :=
  [if faceValid then face.blinkL else 0,
   if faceValid then face.blinkR else 0,
   if faceValid then face.jaw else 0,
   if faceValid then face.browL else 0,
   if faceValid then face.browR else 0,
   if faceValid then face.mouthW else 0,
   if faceValid then face.headX else 0,
   if faceValid then face.headY else 0,
   if faceValid then face.expression else 1/2]

/-- One tick of the `Skull::process` staleness/face-value logic. -/
def skullTick (chan : FaceDataBuffer) (s : ModuleStaleState) (sampleTime : ℚ) :
    ModuleStaleState × Bool × List ℚ :=
  let (s, faceValid) := staleCheck chan s sampleTime
  (s, faceValid, skullFaceVals chan.read faceValid)

/-! ## YIN pitch detector (Voice.cpp) -/

/-- The C cast `(int)x` of a float: truncation toward zero. -/
def cTrunc (q : ℚ) : Int := q.num.tdiv (q.den : Int)

def MAX_BUFFER : Nat := 2048

/-- `YINDetector`'s analysis state; the fixed `float buffer[MAX_BUFFER]` is
carried as a list read through `getD` (out-of-range reads give 0, matching
the zero-initialised array). -/
structure YINState where
  buffer : List ℚ := []
  writePos : Nat := 0
  bufferSize : Nat := 1024
  detectedFreq : ℚ := 0
  confidence : ℚ := 0
  sampleRate : ℚ := 44100
deriving DecidableEq

/-- The circular-buffer read
`buffer[(writePos - bufferSize + k + MAX_BUFFER * 2) % bufferSize]`; the
index arithmetic is done in `Int` exactly as in C (`tmod` is the C `%`),
the operand being non-negative whenever `bufferSize ≤ MAX_BUFFER`. -/
def bufAt (s : YINState) (k : Nat) : ℚ :=
  s.buffer.getD (((s.writePos : Int) - s.bufferSize + k + MAX_BUFFER * 2).tmod s.bufferSize).toNat 0

/-- The inner sum of the difference function: `Σ_{j<n} (x_j - x_{j+tau})²`. -/
def diffSum (s : YINState) (tau : Nat) : Nat → ℚ
  | 0 => 0
  | n + 1 => diffSum s tau n + (bufAt s n - bufAt s (n + tau)) ^ 2

/-- Step 1, `diff[tau]`: zero at lag 0, otherwise the squared-difference sum
over half a window. -/
def diffAt (s : YINState) (tau : Nat) : ℚ :=
  if tau = 0 then 0 else diffSum s tau (s.bufferSize / 2)

/-- `runningSum` after the loop iteration for lag `tau`
(`Σ_{t=1..tau} diff[t]`). -/
def yinRunningSum (s : YINState) : Nat → ℚ
  | 0 => 0
  | t + 1 => yinRunningSum s t + diffAt s (t + 1)

/-- Step 2, the cumulative-mean-normalized difference `cmnd[tau]`. -/
def cmndAt (s : YINState) (tau : Nat) : ℚ :=
  if tau = 0 then 1
  else if 0 < yinRunningSum s tau then diffAt s tau * tau / yinRunningSum s tau
  else 1

/-- `minLag = std::max(2, (int)(sampleRate / 5000.f))`. -/
def minLagOf (s : YINState) : Nat := max 2 (cTrunc (s.sampleRate / 5000)).toNat

/-- `maxLag = std::min(halfW - 1, (int)(sampleRate / 30.f))`. -/
def maxLagOf (s : YINState) : Nat :=
  min (s.bufferSize / 2 - 1) (cTrunc (s.sampleRate / 30)).toNat

/-- The inner `while` of step 3: slide forward to the local minimum after
the threshold crossing. -/
def localMinScan (s : YINState) (maxLag tau : Nat) : Nat :=
  if h : tau + 1 < maxLag then
    if cmndAt s (tau + 1) < cmndAt s tau then localMinScan s maxLag (tau + 1) else tau
  else tau
termination_by maxLag - tau

/-- Step 3: the first lag in `[tau, maxLag)` whose `cmnd` drops below the
0.15 threshold, refined to its local minimum; `-1` when none crosses. -/
def thresholdScan (s : YINState) (maxLag tau : Nat) : Int :=
  if h : tau < maxLag then
    if cmndAt s tau < 3/20 then (localMinScan s maxLag tau : Int)
    else thresholdScan s maxLag (tau + 1)
  else -1
termination_by maxLag - tau

/-- The fallback loop: global minimum of `cmnd` over `[tau, maxLag)`, as the
code computes it (running minimum seeded with `1.f` and `bestTau = -1`). -/
def fallbackScan (s : YINState) (maxLag tau : Nat) (minVal : ℚ) (best : Int) : ℚ × Int :=
  if h : tau < maxLag then
    if cmndAt s tau < minVal then fallbackScan s maxLag (tau + 1) (cmndAt s tau) (tau : Int)
    else fallbackScan s maxLag (tau + 1) minVal best
  else (minVal, best)
termination_by maxLag - tau

/-- The fallback result for the searched range. -/
def fbResult (s : YINState) : ℚ × Int :=
  fallbackScan s (maxLagOf s) (minLagOf s) 1 (-1)

/-- Steps 4-5 of `analyze`, shared by the threshold and fallback paths:
reject if `bestTau < minLag`, otherwise parabolic interpolation around
`bestTau`, then `detectedFreq = sampleRate / tauEstimate` and
`confidence = clamp01(1 - cmnd[bestTau])`. -/
def finishAnalyze (s : YINState) (bestTau : Int) : YINState :=
  if bestTau < (minLagOf s : Int) then { s with confidence := 0 }
  else
    let bt := bestTau.toNat
    let halfW := s.bufferSize / 2
    let tauEstimate : ℚ :=
      if 0 < bt ∧ bt < halfW - 1 then
        let s0 := cmndAt s (bt - 1)
        let s1 := cmndAt s bt
        let s2 := cmndAt s (bt + 1)
        let denom := 2 * (2 * s1 - s0 - s2)
        if 1/1000000 < |denom| then (bt : ℚ) + (s0 - s2) / denom else (bt : ℚ)
      else (bt : ℚ)
    { s with
      detectedFreq := s.sampleRate / tauEstimate
      confidence := max 0 (min 1 (1 - cmndAt s bt)) }

/-- `YINDetector::analyze`: threshold scan, fallback to the global minimum
with outright rejection when even that minimum exceeds 0.5 (confidence is
zeroed and `detectedFreq` is left at its previous value). -/
def analyze (s : YINState) : YINState :=
  let best0 := thresholdScan s (maxLagOf s) (minLagOf s)
  if best0 < 0 then
    let fb := fbResult s
    if 1/2 < fb.1 then { s with confidence := 0 }
    else finishAnalyze s fb.2
  else finishAnalyze s best0

/-- The pitch-advance step of `Voice::process`: `currentPitchV` is
overwritten with `std::log2(freq / 261.626f)` only when a new analysis
arrived with confidence above 0.3, the voiced gate is open and the
frequency lies in (20, 5000); otherwise it holds its previous value.  The
transcendental V/Oct map is abstracted as the parameter `voct`. -/
def voicePitchStep (voct : ℚ → ℚ) (newPitch : Bool) (conf : ℚ) (gateHigh : Bool)
    (freq cur : ℚ) : ℚ :=
  if newPitch = true ∧ 3/10 < conf ∧ gateHigh = true then
    if 20 < freq ∧ freq < 5000 then voct freq else cur
  else cur

/-! ## Onset detector (Voice.cpp) -/

/-- `OnsetDetector`'s state (`cooldownSamples`, `cooldownMax` are C `int`s). -/
structure OnsetState where
  prevEnergy : ℚ := 0
  currentEnergy : ℚ := 0
  energyAcc : ℚ := 0
  sampleCount : Nat := 0
  windowSize : Nat := 512
  adaptiveThreshold : ℚ := 0
  cooldownSamples : Int := 0
  cooldownMax : Int := 2205
deriving DecidableEq

/-- `OnsetDetector::setCooldown(ms, sampleRate)`. -/
def OnsetState.setCooldown (s : OnsetState) (ms sampleRate : ℚ) : OnsetState :=
  { s with cooldownMax := cTrunc (ms * (1/1000) * sampleRate) }

/-- `OnsetDetector::pushSample`: accumulate energy, tick the cooldown down,
and at each window boundary compare the new RMS energy against the previous
window and the adaptive threshold; on an onset the cooldown is re-armed to
`cooldownMax`.  `std::sqrt` is abstracted as the parameter `sqrtF`. -/
def pushSample (sqrtF : ℚ → ℚ) (s : OnsetState) (x : ℚ) : Bool × OnsetState :=
  let s := { s with energyAcc := s.energyAcc + x * x, sampleCount := s.sampleCount + 1 }
  let s := if 0 < s.cooldownSamples then { s with cooldownSamples := s.cooldownSamples - 1 } else s
  if s.windowSize ≤ s.sampleCount then
    let curE := sqrtF (s.energyAcc / s.windowSize)
    let s := { s with
      sampleCount := 0
      prevEnergy := s.currentEnergy
      currentEnergy := curE
      energyAcc := 0
      adaptiveThreshold := s.adaptiveThreshold * (19/20) + curE * (1/20) }
    if 1/1000 < s.prevEnergy ∧ s.cooldownSamples ≤ 0 then
      if 3/2 < s.currentEnergy / s.prevEnergy ∧ s.adaptiveThreshold * (6/5) < s.currentEnergy then
        (true, { s with cooldownSamples := s.cooldownMax })
      else (false, s)
    else (false, s)
  else (false, s)

/-- Whether any of a sequence of pushed samples reports an onset. -/
def anyOnset (sqrtF : ℚ → ℚ) (s : OnsetState) : List ℚ → Bool
  | [] => false
  | x :: xs =>
    let r := pushSample sqrtF s x
    r.1 || anyOnset sqrtF r.2 xs

/-! ## Interleaved model of `DoubleBuffer<T>` / `FaceDataBuffer`

For the channel-atomicity claim the writer and reader are broken into the
individual shared-memory accesses the C++ code performs, and an explicit
scheduler interleaves them (sequential consistency; any torn read exhibited
here is also possible under the weaker release/acquire semantics of the
code).  The payload `T` is modelled as a pair of words: the struct copy
`buffers[inactive] = data` is not a single atomic store, so it is modelled
as two separate stores, and `read` — which returns a reference whose fields
the consumer loads over time — as two separate loads after the index load.

Writer steps per `write(v)` (program order):
`0`: `inactive = 1 - active.load(relaxed)`;
`1`/`2`: the two halves of `buffers[inactive] = data`;
`3`: `active.store(inactive, release)`;
`4`: `version.fetch_add(1, release)`.
Reader steps: `0`: `idx = active.load(acquire)`; `1`/`2`: the two field
loads from `buffers[idx]`. -/

/-- The shared state of the interleaved double-buffer model. -/
structure DBShared where
  slot0 : Nat × Nat
  slot1 : Nat × Nat
  active : Nat
  version : Nat
deriving DecidableEq

def DBShared.slotAt (st : DBShared) (i : Nat) : Nat × Nat :=
  if i = 0 then st.slot0 else st.slot1

def DBShared.setFst (st : DBShared) (i : Nat) (x : Nat) : DBShared :=
  if i = 0 then { st with slot0 := (x, st.slot0.2) } else { st with slot1 := (x, st.slot1.2) }

def DBShared.setSnd (st : DBShared) (i : Nat) (x : Nat) : DBShared :=
  if i = 0 then { st with slot0 := (st.slot0.1, x) } else { st with slot1 := (st.slot1.1, x) }

/-- A configuration: shared state, the writer's queue of pending `write`
calls with its program counter and `inactive` register, and the reader's
program counter and registers. -/
structure DBConfig where
  st : DBShared
  pending : List (Nat × Nat)
  wpc : Nat
  wreg : Nat
  rpc : Nat
  ridx : Nat
  ra : Nat
  rb : Nat
deriving DecidableEq

/-- One writer step (no-op when all queued writes are done). -/
def stepW (c : DBConfig) : DBConfig :=
  match c.pending with
  | [] => c
  | v :: rest =>
    match c.wpc with
    | 0 => { c with wreg := 1 - c.st.active, wpc := 1 }
    | 1 => { c with st := c.st.setFst c.wreg v.1, wpc := 2 }
    | 2 => { c with st := c.st.setSnd c.wreg v.2, wpc := 3 }
    | 3 => { c with st := { c.st with active := c.wreg }, wpc := 4 }
    | _ => { c with st := { c.st with version := c.st.version + 1 }, pending := rest, wpc := 0 }

/-- One reader step (no-op once the read completed). -/
def stepR (c : DBConfig) : DBConfig :=
  match c.rpc with
  | 0 => { c with ridx := c.st.active, rpc := 1 }
  | 1 => { c with ra := (c.st.slotAt c.ridx).1, rpc := 2 }
  | 2 => { c with rb := (c.st.slotAt c.ridx).2, rpc := 3 }
  | _ => c

/-- Run a schedule (`true` = writer step, `false` = reader step). -/
def runDB (sched : List Bool) (c : DBConfig) : DBConfig :=
  sched.foldl (fun c b => if b then stepW c else stepR c) c

/-- Initial configuration: the published value `oldp` sits in slot 0 (the
active slot), slot 1 holds leftover garbage `g`, and the writer has the
queue `ws` of `write` calls ahead of it. -/
def dbInit (oldp g : Nat × Nat) (ws : List (Nat × Nat)) : DBConfig :=
  { st := { slot0 := oldp, slot1 := g, active := 0, version := 0 }
    pending := ws, wpc := 0, wreg := 0, rpc := 0, ridx := 0, ra := 0, rb := 0 }

/-- A well-formed NERV v2-tagged packet of v1 length (84 bytes): magic,
version 2, face count 1, zeroed channel block, and the eight bytes starting
at offset 76 (the v1 timestamp position) encoding the `uint64` 1. -/
def nervBuf : List Nat :=
  [78, 69, 82, 86, 2, 0, 1, 0] ++ List.replicate 68 0 ++ [1, 0, 0, 0, 0, 0, 0, 0]

/-- A well-formed 48-byte KINT v1 packet with zeroed floats. -/
def kintBuf : List Nat := [75, 73, 78, 84, 1, 0, 3, 1] ++ List.replicate 40 0

/-- A well-formed 28-byte SKEL v1 packet carrying one joint. -/
def skelBuf : List Nat := [83, 75, 69, 76, 1, 0, 0, 1] ++ List.replicate 20 0

/-- The channel-range predicate for a decoded face snapshot: every
continuous channel inside its documented semantic range. -/
def FaceData.channelsInRange (d : FaceData) : Prop :=
  (-1 ≤ d.headX ∧ d.headX ≤ 1) ∧ (-1 ≤ d.headY ∧ d.headY ≤ 1) ∧
  (-1 ≤ d.headZ ∧ d.headZ ≤ 1) ∧ (0 ≤ d.headDist ∧ d.headDist ≤ 1) ∧
  (0 ≤ d.leftEye ∧ d.leftEye ≤ 1) ∧ (0 ≤ d.rightEye ∧ d.rightEye ≤ 1) ∧
  (-1 ≤ d.gazeX ∧ d.gazeX ≤ 1) ∧ (-1 ≤ d.gazeY ∧ d.gazeY ≤ 1) ∧
  (0 ≤ d.mouthW ∧ d.mouthW ≤ 1) ∧ (0 ≤ d.mouthH ∧ d.mouthH ≤ 1) ∧
  (0 ≤ d.jaw ∧ d.jaw ≤ 1) ∧ (0 ≤ d.lips ∧ d.lips ≤ 1) ∧
  (0 ≤ d.browL ∧ d.browL ≤ 1) ∧ (0 ≤ d.browR ∧ d.browR ≤ 1) ∧
  (0 ≤ d.blinkL ∧ d.blinkL ≤ 1) ∧ (0 ≤ d.blinkR ∧ d.blinkR ≤ 1) ∧
  (0 ≤ d.expression ∧ d.expression ≤ 1) ∧ (0 ≤ d.tongue ∧ d.tongue ≤ 1) ∧
  (0 ≤ d.browInnerUp ∧ d.browInnerUp ≤ 1) ∧ (0 ≤ d.browDownL ∧ d.browDownL ≤ 1) ∧
  (0 ≤ d.browDownR ∧ d.browDownR ≤ 1)

/-- The channel-range predicate for a decoded depth snapshot. -/
def DepthCVs.channelsInRange (c : DepthCVs) : Prop :=
  (0 ≤ c.dist ∧ c.dist ≤ 1) ∧ (0 ≤ c.motion ∧ c.motion ≤ 1) ∧
  (-1 ≤ c.cntX ∧ c.cntX ≤ 1) ∧ (-1 ≤ c.cntY ∧ c.cntY ≤ 1) ∧
  (0 ≤ c.area ∧ c.area ≤ 1) ∧ (0 ≤ c.depthL ∧ c.depthL ≤ 1) ∧
  (0 ≤ c.depthR ∧ c.depthR ≤ 1) ∧ (0 ≤ c.entropy ∧ c.entropy ≤ 1)

/-- The range predicate for one skeleton joint. -/
def JointXYZ.inRange (j : JointXYZ) : Prop :=
  (-1 ≤ j.x ∧ j.x ≤ 1) ∧ (-1 ≤ j.y ∧ j.y ≤ 1) ∧ (-1 ≤ j.z ∧ j.z ≤ 1)

/-! ## Helper lemmas -/

theorem rackClamp_mem (x : F32) (a b : ℚ) (hab : a ≤ b) :
    a ≤ rackClamp x a b ∧ rackClamp x a b ≤ b := by
  cases x with
  | nan => simp [rackClamp, max_eq_right hab, hab]
  | inf s => cases s <;> simp [rackClamp, max_eq_right hab, hab]
  | fin q => exact ⟨le_max_right _ _, max_le (min_le_right _ _) hab⟩

theorem rackClamp_mem01 (x : F32) : 0 ≤ rackClamp x 0 1 ∧ rackClamp x 0 1 ≤ 1 :=
  rackClamp_mem x 0 1 (by norm_num)

theorem rackClamp_mem11 (x : F32) : -1 ≤ rackClamp x (-1) 1 ∧ rackClamp x (-1) 1 ≤ 1 :=
  rackClamp_mem x (-1) 1 (by norm_num)

theorem parsePacket_accept (buf : List Nat) (out : FaceData)
    (h : (parsePacket buf out).1 = true) :
    parsePacket buf out = (true, parseBody buf out) := by
  unfold parsePacket at h ⊢
  split_ifs at h ⊢ <;> simp_all

theorem readJoint_inRange (buf : List Nat) (i : Nat) : (readJoint buf i).inRange :=
  ⟨rackClamp_mem _ (-1) 1 (by norm_num), rackClamp_mem _ (-1) 1 (by norm_num),
    rackClamp_mem _ (-1) 1 (by norm_num)⟩

/-! ## C1 — the face decoder rejects without side effects -/

/-- C1: whenever the buffer is shorter than 84 bytes, or the magic is not
"NERV", or the version is outside 1..2, or the face count is outside 1..4,
`parsePacket` returns `false` with the output record untouched, and the
receiver loop leaves the snapshot channel unchanged. -/
theorem spec_C1 (buf : List Nat) (out : FaceData) (chan : FaceDataBuffer) (now : Nat)
    (h : buf.length < 84 ∨ ¬ nerveMagicOk buf ∨ readU16 buf 4 < 1 ∨ 2 < readU16 buf 4 ∨
      readU16 buf 6 < 1 ∨ 4 < readU16 buf 6) :
    parsePacket buf out = (false, out) ∧ receiverStep chan buf now = chan := by
  have reject : ∀ o : FaceData, parsePacket buf o = (false, o) := by
    intro o
    unfold parsePacket
    split_ifs with h1 h2 h3 h4
    any_goals rfl
    exfalso
    rcases h with h | h | h | h | h | h
    · exact h1 h
    · exact h h2
    · exact h3 (Or.inl h)
    · exact h3 (Or.inr h)
    · exact h4 (Or.inl h)
    · exact h4 (Or.inr h)
  refine ⟨reject out, ?_⟩
  unfold receiverStep
  simp [reject default]

/-- Witness for C1 at a concrete truncated datagram. -/
theorem spec_C1_witness :
    parsePacket [0, 1, 2] default = (false, default) ∧
      receiverStep default [0, 1, 2] 77 = default :=
  spec_C1 [0, 1, 2] default default 77 (Or.inl (by decide))

/-! ## C10 — blink channels are thresholded to {0, 1} -/

/-- C10: on every accepted face packet the decoded blink channels are the
0.5-threshold (strictly greater ↦ 1, else 0) of the wire floats at offsets
56/60 of the face block (buffer offsets 64/68), and therefore take only the
values 0 and 1. -/
theorem spec_C10 (buf : List Nat) (out : FaceData)
    (h : (parsePacket buf out).1 = true) :
    (parsePacket buf out).2.blinkL = (if (readF32 buf 64).gtQ (1/2) then 1 else 0) ∧
    (parsePacket buf out).2.blinkR = (if (readF32 buf 68).gtQ (1/2) then 1 else 0) ∧
    ((parsePacket buf out).2.blinkL = 0 ∨ (parsePacket buf out).2.blinkL = 1) ∧
    ((parsePacket buf out).2.blinkR = 0 ∨ (parsePacket buf out).2.blinkR = 1) := by
  rw [parsePacket_accept buf out h]
  unfold parseBody
  by_cases hc : 2 ≤ readU16 buf 4 ∧ NERVE_V2_PACKET_SIZE ≤ buf.length <;>
    simp only [hc, if_true, if_false, NERVE_HEADER_SIZE, if_pos, if_neg, not_false_iff] <;>
    refine ⟨by norm_num, by norm_num, ?_, ?_⟩ <;> split <;> simp

/-- Witness for C10 at a concrete accepted packet. -/
theorem spec_C10_witness :
    (parsePacket nervBuf default).2.blinkL = 0 ∨ (parsePacket nervBuf default).2.blinkL = 1 :=
  (spec_C10 nervBuf default (by decide)).2.2.1

/-! ## C3 — all decoded channels lie in their documented ranges -/

set_option maxHeartbeats 1600000 in
/-- The accepted face record written by `parseBody`, with every field
spelled out (all 24 fields are overwritten, so the result does not depend
on the previous contents of `out`). -/
theorem parseBody_eq (buf : List Nat) (out : FaceData) :
    parseBody buf out = {
      headX := rackClamp (readF32 buf 8) (-1) 1
      headY := rackClamp (readF32 buf 12) (-1) 1
      headZ := rackClamp (readF32 buf 16) (-1) 1
      headDist := rackClamp (readF32 buf 20) 0 1
      leftEye := rackClamp (readF32 buf 24) 0 1
      rightEye := rackClamp (readF32 buf 28) 0 1
      gazeX := rackClamp (readF32 buf 32) (-1) 1
      gazeY := rackClamp (readF32 buf 36) (-1) 1
      mouthW := rackClamp (readF32 buf 40) 0 1
      mouthH := rackClamp (readF32 buf 44) 0 1
      jaw := rackClamp (readF32 buf 48) 0 1
      lips := rackClamp (readF32 buf 52) 0 1
      browL := rackClamp (readF32 buf 56) 0 1
      browR := rackClamp (readF32 buf 60) 0 1
      blinkL := if (readF32 buf 64).gtQ (1/2) then 1 else 0
      blinkR := if (readF32 buf 68).gtQ (1/2) then 1 else 0
      expression := rackClamp (readF32 buf 72) 0 1
      tongue := if 2 ≤ readU16 buf 4 ∧ 100 ≤ buf.length
        then rackClamp (readF32 buf 76) 0 1 else 0
      browInnerUp := if 2 ≤ readU16 buf 4 ∧ 100 ≤ buf.length
        then rackClamp (readF32 buf 80) 0 1 else 0
      browDownL := if 2 ≤ readU16 buf 4 ∧ 100 ≤ buf.length
        then rackClamp (readF32 buf 84) 0 1 else 0
      browDownR := if 2 ≤ readU16 buf 4 ∧ 100 ≤ buf.length
        then rackClamp (readF32 buf 88) 0 1 else 0
      timestamp := if 2 ≤ readU16 buf 4 ∧ 100 ≤ buf.length
        then readU64 buf 92 else readU64 buf 76
      faceCount := readU16 buf 6
      valid := true } := by
  simp only [parseBody, NERVE_V2_PACKET_SIZE, NERVE_HEADER_SIZE]
  split_ifs <;> rfl

theorem parseBody_headX_eq (buf : List Nat) (out : FaceData) :
    (parseBody buf out).headX = rackClamp (readF32 buf 8) (-1) 1 := by
  simp only [parseBody_eq]

theorem parseBody_headY_eq (buf : List Nat) (out : FaceData) :
    (parseBody buf out).headY = rackClamp (readF32 buf 12) (-1) 1 := by
  simp only [parseBody_eq]

theorem parseBody_headZ_eq (buf : List Nat) (out : FaceData) :
    (parseBody buf out).headZ = rackClamp (readF32 buf 16) (-1) 1 := by
  simp only [parseBody_eq]

theorem parseBody_headDist_eq (buf : List Nat) (out : FaceData) :
    (parseBody buf out).headDist = rackClamp (readF32 buf 20) 0 1 := by
  simp only [parseBody_eq]

theorem parseBody_leftEye_eq (buf : List Nat) (out : FaceData) :
    (parseBody buf out).leftEye = rackClamp (readF32 buf 24) 0 1 := by
  simp only [parseBody_eq]

theorem parseBody_rightEye_eq (buf : List Nat) (out : FaceData) :
    (parseBody buf out).rightEye = rackClamp (readF32 buf 28) 0 1 := by
  simp only [parseBody_eq]

theorem parseBody_gazeX_eq (buf : List Nat) (out : FaceData) :
    (parseBody buf out).gazeX = rackClamp (readF32 buf 32) (-1) 1 := by
  simp only [parseBody_eq]

theorem parseBody_gazeY_eq (buf : List Nat) (out : FaceData) :
    (parseBody buf out).gazeY = rackClamp (readF32 buf 36) (-1) 1 := by
  simp only [parseBody_eq]

theorem parseBody_mouthW_eq (buf : List Nat) (out : FaceData) :
    (parseBody buf out).mouthW = rackClamp (readF32 buf 40) 0 1 := by
  simp only [parseBody_eq]

theorem parseBody_mouthH_eq (buf : List Nat) (out : FaceData) :
    (parseBody buf out).mouthH = rackClamp (readF32 buf 44) 0 1 := by
  simp only [parseBody_eq]

theorem parseBody_jaw_eq (buf : List Nat) (out : FaceData) :
    (parseBody buf out).jaw = rackClamp (readF32 buf 48) 0 1 := by
  simp only [parseBody_eq]

theorem parseBody_lips_eq (buf : List Nat) (out : FaceData) :
    (parseBody buf out).lips = rackClamp (readF32 buf 52) 0 1 := by
  simp only [parseBody_eq]

theorem parseBody_browL_eq (buf : List Nat) (out : FaceData) :
    (parseBody buf out).browL = rackClamp (readF32 buf 56) 0 1 := by
  simp only [parseBody_eq]

theorem parseBody_browR_eq (buf : List Nat) (out : FaceData) :
    (parseBody buf out).browR = rackClamp (readF32 buf 60) 0 1 := by
  simp only [parseBody_eq]

theorem parseBody_expression_eq (buf : List Nat) (out : FaceData) :
    (parseBody buf out).expression = rackClamp (readF32 buf 72) 0 1 := by
  simp only [parseBody_eq]

theorem parseBody_blinkL_eq (buf : List Nat) (out : FaceData) :
    (parseBody buf out).blinkL = if (readF32 buf 64).gtQ (1/2) then 1 else 0 := by
  simp only [parseBody_eq]

theorem parseBody_blinkR_eq (buf : List Nat) (out : FaceData) :
    (parseBody buf out).blinkR = if (readF32 buf 68).gtQ (1/2) then 1 else 0 := by
  simp only [parseBody_eq]

theorem parseBody_tongue_eq (buf : List Nat) (out : FaceData) :
    (parseBody buf out).tongue = if 2 ≤ readU16 buf 4 ∧ 100 ≤ buf.length
      then rackClamp (readF32 buf 76) 0 1 else 0 := by
  simp only [parseBody_eq]

theorem parseBody_browInnerUp_eq (buf : List Nat) (out : FaceData) :
    (parseBody buf out).browInnerUp = if 2 ≤ readU16 buf 4 ∧ 100 ≤ buf.length
      then rackClamp (readF32 buf 80) 0 1 else 0 := by
  simp only [parseBody_eq]

theorem parseBody_browDownL_eq (buf : List Nat) (out : FaceData) :
    (parseBody buf out).browDownL = if 2 ≤ readU16 buf 4 ∧ 100 ≤ buf.length
      then rackClamp (readF32 buf 84) 0 1 else 0 := by
  simp only [parseBody_eq]

theorem parseBody_browDownR_eq (buf : List Nat) (out : FaceData) :
    (parseBody buf out).browDownR = if 2 ≤ readU16 buf 4 ∧ 100 ≤ buf.length
      then rackClamp (readF32 buf 88) 0 1 else 0 := by
  simp only [parseBody_eq]

theorem parseBody_timestamp_eq (buf : List Nat) (out : FaceData) :
    (parseBody buf out).timestamp = if 2 ≤ readU16 buf 4 ∧ 100 ≤ buf.length
      then readU64 buf 92 else readU64 buf 76 := by
  simp only [parseBody_eq]

theorem parseBody_channelsInRange (buf : List Nat) (out : FaceData) :
    (parseBody buf out).channelsInRange := by
  unfold FaceData.channelsInRange
  rw [parseBody_headX_eq, parseBody_headY_eq, parseBody_headZ_eq, parseBody_headDist_eq,
    parseBody_leftEye_eq, parseBody_rightEye_eq, parseBody_gazeX_eq, parseBody_gazeY_eq,
    parseBody_mouthW_eq, parseBody_mouthH_eq, parseBody_jaw_eq, parseBody_lips_eq,
    parseBody_browL_eq, parseBody_browR_eq, parseBody_blinkL_eq, parseBody_blinkR_eq,
    parseBody_expression_eq, parseBody_tongue_eq, parseBody_browInnerUp_eq,
    parseBody_browDownL_eq, parseBody_browDownR_eq]
  refine ⟨rackClamp_mem11 _, rackClamp_mem11 _, rackClamp_mem11 _, rackClamp_mem01 _,
    rackClamp_mem01 _, rackClamp_mem01 _, rackClamp_mem11 _, rackClamp_mem11 _,
    rackClamp_mem01 _, rackClamp_mem01 _, rackClamp_mem01 _, rackClamp_mem01 _,
    rackClamp_mem01 _, rackClamp_mem01 _, ?_, ?_, rackClamp_mem01 _, ?_, ?_, ?_, ?_⟩
  all_goals
    split
    · first
      | exact rackClamp_mem01 _
      | norm_num
    · norm_num

theorem foldl_set_joints_length (buf : List Nat) (n : Nat) (l : List JointXYZ) :
    ((List.range n).foldl (fun js k => js.set k (readJoint buf k)) l).length = l.length := by
  induction n generalizing l with
  | zero => rfl
  | succ n ih =>
    rw [List.range_succ, List.foldl_append, List.foldl_cons, List.foldl_nil,
      List.length_set, ih]

theorem foldl_set_joints_getElem (buf : List Nat) (n : Nat) (l : List JointXYZ)
    (hn : n ≤ l.length) (i : Nat) (hi : i < n) :
    ((List.range n).foldl (fun js k => js.set k (readJoint buf k)) l)[i]? =
      some (readJoint buf i) := by
  induction n generalizing l with
  | zero => omega
  | succ n ih =>
    rw [List.range_succ, List.foldl_append, List.foldl_cons, List.foldl_nil]
    rcases Nat.lt_or_ge i n with hin | hin
    · rw [List.getElem?_set_ne (show n ≠ i by omega)]
      exact ih l (by omega) hin
    · have hie : i = n := by omega
      subst hie
      exact List.getElem?_set_self (by rw [foldl_set_joints_length]; omega)

/-- `parseSkelPacket` accepts exactly when all four guards pass. -/
theorem parseSkel_accept_iff (buf : List Nat) (out : SkeletonBody) :
    (parseSkelPacket buf out).1 = true ↔
      16 ≤ buf.length ∧ skelMagicOk buf ∧ readU16 buf 4 = 1 ∧
        skelExpectedLen buf ≤ buf.length := by
  unfold parseSkelPacket
  split_ifs <;> simp_all [SKEL_MIN_SIZE] <;> omega

/-- The accepted shape of `parseSkelPacket`: header fields stored, joint
count clamped, the first `jc` joints overwritten by the loop. -/
theorem parseSkel_result (buf : List Nat) (out : SkeletonBody)
    (h : (parseSkelPacket buf out).1 = true) :
    (parseSkelPacket buf out).2 =
      { out with
        bodyIndex := byteAt buf 6
        jointCount := byteAt buf 7
        joints := (List.range (skelJointCountClamped buf)).foldl
          (fun js k => js.set k (readJoint buf k)) out.joints
        valid := true } := by
  obtain ⟨hl, hm, hv, he⟩ := (parseSkel_accept_iff buf out).mp h
  unfold parseSkelPacket
  rw [if_neg (by simp [SKEL_MIN_SIZE]; omega), if_neg (not_not_intro hm),
    if_neg (fun hn => hn hv), if_neg (Nat.not_lt.mpr he)]

set_option maxHeartbeats 1000000 in
/-- C3: every channel decoded by any of the three packet decoders lies in
its documented semantic range: all face channels of an accepted NERV packet,
all depth CVs of an accepted KINT packet, and every joint written by an
accepted SKEL packet (the fixed joint array having its capacity of 32). -/
theorem spec_C3 :
    (∀ (buf : List Nat) (out : FaceData), (parsePacket buf out).1 = true →
      (parsePacket buf out).2.channelsInRange) ∧
    (∀ (buf : List Nat) (out : DepthData), (parseKintPacket buf out).1 = true →
      (parseKintPacket buf out).2.cvs.channelsInRange) ∧
    (∀ (buf : List Nat) (out : SkeletonBody) (i : Nat), (parseSkelPacket buf out).1 = true →
      out.joints.length = 32 → i < skelJointCountClamped buf →
      ((parseSkelPacket buf out).2.joints.getD i default).inRange) := by
  refine ⟨?_, ?_, ?_⟩
  · intro buf out h
    rw [parsePacket_accept buf out h]
    exact parseBody_channelsInRange buf out
  · intro buf out h
    unfold parseKintPacket at h ⊢
    split_ifs at h ⊢ <;> simp_all
    unfold DepthCVs.channelsInRange
    repeat' apply And.intro
    all_goals
      first
      | exact (rackClamp_mem01 _).1
      | exact (rackClamp_mem01 _).2
      | exact (rackClamp_mem11 _).1
      | exact (rackClamp_mem11 _).2
  · intro buf out i h hlen hi
    simp only [parseSkel_result buf out h]
    rw [List.getD_eq_getElem?_getD,
      foldl_set_joints_getElem buf _ out.joints (by rw [hlen]; exact min_le_right _ _) i hi]
    simp only [Option.getD_some]
    exact readJoint_inRange buf i

/-- Witness for C3 at concrete accepted NERV / KINT / SKEL packets. -/
theorem spec_C3_witness :
    (parsePacket nervBuf default).2.channelsInRange ∧
    (parseKintPacket kintBuf default).2.cvs.channelsInRange ∧
    ((parseSkelPacket skelBuf default).2.joints.getD 0 default).inRange :=
  ⟨spec_C3.1 nervBuf default (by decide),
   spec_C3.2.1 kintBuf default (by decide),
   spec_C3.2.2 skelBuf default 0 (by decide) (by decide) (by decide)⟩

/-! ## C4 — skeleton counts are clamped; all accesses stay in bounds -/

/-- C4: for every accepted skeleton packet the wire joint count is clamped
to the 32-joint capacity before the expected length is computed; every byte
the joint loop reads lies inside the supplied buffer (as do the header
reads), every joint write hits an index below 32, and the in-memory joint
array does not grow. -/
theorem spec_C4 (buf : List Nat) (out : SkeletonBody)
    (h : (parseSkelPacket buf out).1 = true) :
    skelJointCountClamped buf = min (byteAt buf 7) 32 ∧
    skelExpectedLen buf = 8 + skelJointCountClamped buf * 12 + 8 ∧
    16 ≤ buf.length ∧
    skelExpectedLen buf ≤ buf.length ∧
    (∀ i, i < skelJointCountClamped buf →
      i < 32 ∧ 8 + i * 12 + 11 < buf.length) ∧
    (parseSkelPacket buf out).2.joints.length = out.joints.length := by
  obtain ⟨h16, -, -, hexp⟩ := (parseSkel_accept_iff buf out).mp h
  refine ⟨rfl, rfl, h16, hexp, ?_, ?_⟩
  · intro i hi
    have hle : skelJointCountClamped buf ≤ 32 := min_le_right _ _
    have hee : skelExpectedLen buf = 8 + skelJointCountClamped buf * 12 + 8 := rfl
    omega
  · simp only [parseSkel_result buf out h]
    rw [foldl_set_joints_length]

/-- Witness for C4 at a concrete accepted skeleton packet. -/
theorem spec_C4_witness :
    16 ≤ skelBuf.length ∧
    (∀ i, i < skelJointCountClamped skelBuf → i < 32 ∧ 8 + i * 12 + 11 < skelBuf.length) ∧
    (parseSkelPacket skelBuf default).2.joints.length = 32 :=
  ⟨(spec_C4 skelBuf default (by decide)).2.2.1,
   (spec_C4 skelBuf default (by decide)).2.2.2.2.1,
   by rw [(spec_C4 skelBuf default (by decide)).2.2.2.2.2]; decide⟩

/-! ## C2 — layout dispatch: version together with length (corrected) -/

/-- Counterexample to C2 as stated: `nervBuf` declares version 2 but is 84
bytes long; the decoder accepts it (length is not used as a consistency
check that rejects) and decodes it with the v1 layout — the timestamp is
read from buffer offset 76 (value 1), not from the v2 timestamp position
at offset 92 (whose bytes would give 0). -/
theorem spec_C2_cex :
    readU16 nervBuf 4 = 2 ∧
    nervBuf.length = 84 ∧
    (parsePacket nervBuf default).1 = true ∧
    (parsePacket nervBuf default).2.timestamp = 1 ∧
    readU64 nervBuf 92 = 0 ∧
    (parsePacket nervBuf default).2.timestamp ≠ readU64 nervBuf 92 := by
  decide

/-- C2 (amended): the field layout is selected from the declared version
field *and* the payload length together: an accepted packet is decoded with
the extended v2 layout (extra floats at face-block offsets 68..83 and
timestamp at 84) exactly when `version ≥ 2` and the payload is at least 100
bytes; an accepted version-2 packet shorter than 100 bytes is decoded with
the baseline v1 layout (zeroed v2 fields, timestamp at face-block offset
68) rather than rejected. -/
theorem spec_C2 (buf : List Nat) (out : FaceData)
    (h : (parsePacket buf out).1 = true) :
    (2 ≤ readU16 buf 4 ∧ 100 ≤ buf.length →
      (parsePacket buf out).2.tongue = rackClamp (readF32 buf 76) 0 1 ∧
      (parsePacket buf out).2.browInnerUp = rackClamp (readF32 buf 80) 0 1 ∧
      (parsePacket buf out).2.browDownL = rackClamp (readF32 buf 84) 0 1 ∧
      (parsePacket buf out).2.browDownR = rackClamp (readF32 buf 88) 0 1 ∧
      (parsePacket buf out).2.timestamp = readU64 buf 92) ∧
    (¬ (2 ≤ readU16 buf 4 ∧ 100 ≤ buf.length) →
      (parsePacket buf out).2.tongue = 0 ∧
      (parsePacket buf out).2.browInnerUp = 0 ∧
      (parsePacket buf out).2.browDownL = 0 ∧
      (parsePacket buf out).2.browDownR = 0 ∧
      (parsePacket buf out).2.timestamp = readU64 buf 76) := by
  rw [parsePacket_accept buf out h, parseBody_eq]
  constructor
  · intro hc
    simp [if_pos hc]
  · intro hc
    simp [if_neg hc]

/-- Witness for C2 (amended) at the concrete 84-byte version-2 packet. -/
theorem spec_C2_witness :
    (parsePacket nervBuf default).2.tongue = 0 ∧
    (parsePacket nervBuf default).2.timestamp = readU64 nervBuf 76 :=
  ⟨((spec_C2 nervBuf default (by decide)).2 (by decide)).1,
   ((spec_C2 nervBuf default (by decide)).2 (by decide)).2.2.2.2⟩

/-! ## C6 / C9 — staleness forces neutral targets -/

/-- `staleCheck`'s validity flag, written through the ticked tracker. -/
theorem staleCheck_snd (chan : FaceDataBuffer) (s : ModuleStaleState) (st : ℚ) :
    (staleCheck chan s st).2 = (chan.read.valid &&
      !((if chan.version ≠ s.lastSeenVersion then s.timeout.reset
          else s.timeout).tick st).isTimedOut) := by
  unfold staleCheck
  by_cases hv : chan.version ≠ s.lastSeenVersion <;> simp [hv]

theorem nerveTick_eq (chan : FaceDataBuffer) (s : ModuleStaleState) (st : ℚ) :
    nerveTick chan s st = ((staleCheck chan s st).1, (staleCheck chan s st).2,
      nerveTargets chan.read (staleCheck chan s st).2) := rfl

theorem skullTick_eq (chan : FaceDataBuffer) (s : ModuleStaleState) (st : ℚ) :
    skullTick chan s st = ((staleCheck chan s st).1, (staleCheck chan s st).2,
      skullFaceVals chan.read (staleCheck chan s st).2) := rfl

/-- The staleness core of `Nerve::process`: when the ticked tracker reports
a timeout or the snapshot's validity flag is false, `faceValid` is false and
all 20 slew targets are 0. -/
theorem nerveTick_stale (chan : FaceDataBuffer) (s : ModuleStaleState) (st : ℚ)
    (h : ((if chan.version ≠ s.lastSeenVersion then s.timeout.reset else s.timeout).tick
        st).isTimedOut = true ∨ chan.read.valid = false) :
    (nerveTick chan s st).2.1 = false ∧
      (nerveTick chan s st).2.2 = List.replicate 20 0 := by
  have hfv : (staleCheck chan s st).2 = false := by
    rw [staleCheck_snd]
    rcases h with h | h <;> rw [h] <;> simp
  rw [nerveTick_eq, hfv]
  exact ⟨rfl, rfl⟩

/-- The staleness core of `Skull::process`: when stale or invalid, every
face value handed to the drum engine is 0 except the neutral 0.5
expression. -/
theorem skullTick_stale (chan : FaceDataBuffer) (s : ModuleStaleState) (st : ℚ)
    (h : ((if chan.version ≠ s.lastSeenVersion then s.timeout.reset else s.timeout).tick
        st).isTimedOut = true ∨ chan.read.valid = false) :
    (skullTick chan s st).2.1 = false ∧
      (skullTick chan s st).2.2 = [0, 0, 0, 0, 0, 0, 0, 0, 1/2] := by
  have hfv : (staleCheck chan s st).2 = false := by
    rw [staleCheck_snd]
    rcases h with h | h <;> rw [h] <;> simp
  rw [skullTick_eq, hfv]
  exact ⟨rfl, rfl⟩

/-- C6: on every tick of NERVE or SKULL, if the accumulated staleness after
this tick exceeds the configured timeout, or the latest snapshot's validity
flag is false, the per-channel targets for the tick are the neutral vector
(all zeros for NERVE's 20 slew targets; zeros plus the neutral 0.5
expression for SKULL's drum inputs), not the channel's stale contents. -/
theorem spec_C6 (chan : FaceDataBuffer) (sN sS : ModuleStaleState) (st : ℚ)
    (hN : ((if chan.version ≠ sN.lastSeenVersion then sN.timeout.reset else sN.timeout).tick
        st).isTimedOut = true ∨ chan.read.valid = false)
    (hS : ((if chan.version ≠ sS.lastSeenVersion then sS.timeout.reset else sS.timeout).tick
        st).isTimedOut = true ∨ chan.read.valid = false) :
    (nerveTick chan sN st).2.1 = false ∧
    (nerveTick chan sN st).2.2 = List.replicate 20 0 ∧
    (skullTick chan sS st).2.1 = false ∧
    (skullTick chan sS st).2.2 = [0, 0, 0, 0, 0, 0, 0, 0, 1/2] :=
  ⟨(nerveTick_stale chan sN st hN).1, (nerveTick_stale chan sN st hN).2,
    (skullTick_stale chan sS st hS).1, (skullTick_stale chan sS st hS).2⟩

/-- Witness for C6 on a fresh channel (invalid snapshot, stale tracker). -/
theorem spec_C6_witness :
    (nerveTick default {} 0).2.2 = List.replicate 20 0 ∧
      (skullTick default {} 0).2.2 = [0, 0, 0, 0, 0, 0, 0, 0, 1/2] :=
  ⟨(spec_C6 default {} {} 0 (Or.inr (by decide)) (Or.inr (by decide))).2.1,
   (spec_C6 default {} {} 0 (Or.inr (by decide)) (Or.inr (by decide))).2.2.2⟩

/-- The module staleness state as it is at construction time: no version
seen yet and a freshly constructed tracker with the configured timeout. -/
def freshStale (t : ℚ) : ModuleStaleState :=
  { lastSeenVersion := 0, timeout := TimeoutTracker.init.setTimeoutSeconds t }

/-- C9: a freshly constructed `TimeoutTracker` starts with `elapsed = 999`
seconds, so `isTimedOut` is already true for every configured timeout below
999 s; consequently, on a fresh channel whose version has never changed,
both consuming modules compute `faceValid = false` and neutral targets from
their very first tick. -/
theorem spec_C9 (t st : ℚ) (chan : FaceDataBuffer)
    (ht : t < 999) (hst : 0 ≤ st) (hv : chan.version = 0) :
    TimeoutTracker.init.elapsed = 999 ∧
    (TimeoutTracker.init.setTimeoutSeconds t).isTimedOut = true ∧
    (nerveTick chan (freshStale t) st).2.1 = false ∧
    (nerveTick chan (freshStale t) st).2.2 = List.replicate 20 0 ∧
    (skullTick chan (freshStale t) st).2.1 = false ∧
    (skullTick chan (freshStale t) st).2.2 = [0, 0, 0, 0, 0, 0, 0, 0, 1/2] := by
  have hto : ((if chan.version ≠ (freshStale t).lastSeenVersion then
      (freshStale t).timeout.reset
      else (freshStale t).timeout).tick st).isTimedOut = true := by
    rw [if_neg (by simp [hv, freshStale])]
    simp only [freshStale, TimeoutTracker.init, TimeoutTracker.setTimeoutSeconds,
      TimeoutTracker.tick, TimeoutTracker.isTimedOut, decide_eq_true_eq]
    exact lt_add_of_lt_of_nonneg ht hst
  have hN := nerveTick_stale chan (freshStale t) st (Or.inl hto)
  have hS := skullTick_stale chan (freshStale t) st (Or.inl hto)
  refine ⟨rfl, ?_, hN.1, hN.2, hS.1, hS.2⟩
  simp only [TimeoutTracker.init, TimeoutTracker.setTimeoutSeconds,
    TimeoutTracker.isTimedOut, decide_eq_true_eq]
  exact ht

/-- Witness for C9 at the default 0.5 s timeout and a fresh channel. -/
theorem spec_C9_witness :
    (TimeoutTracker.init.setTimeoutSeconds (1/2)).isTimedOut = true ∧
      (nerveTick default (freshStale (1/2)) 0).2.2 = List.replicate 20 0 :=
  ⟨(spec_C9 (1/2) 0 default (by norm_num) le_rfl rfl).2.1,
   (spec_C9 (1/2) 0 default (by norm_num) le_rfl rfl).2.2.2.1⟩

/-! ## C8 — the onset cooldown suppresses retriggers -/

/-- While at least two cooldown samples remain, `pushSample` cannot report
an onset and simply decrements the cooldown. -/
theorem push_no_onset (sqrtF : ℚ → ℚ) (s : OnsetState) (x : ℚ)
    (h : 2 ≤ s.cooldownSamples) :
    (pushSample sqrtF s x).1 = false ∧
      (pushSample sqrtF s x).2.cooldownSamples = s.cooldownSamples - 1 := by
  simp only [pushSample]
  rw [if_pos (show (0 : Int) < s.cooldownSamples by omega)]
  simp only []
  split_ifs with hw hc hr
  · exact absurd hc.2 (by omega)
  all_goals exact ⟨rfl, rfl⟩

/-- No sequence shorter than the remaining cooldown can contain an onset. -/
theorem anyOnset_cooldown (sqrtF : ℚ → ℚ) :
    ∀ (xs : List ℚ) (s : OnsetState), (xs.length : Int) < s.cooldownSamples →
      anyOnset sqrtF s xs = false := by
  intro xs
  induction xs with
  | nil => intro s _; rfl
  | cons x tail ih =>
    intro s h
    have h2 : 2 ≤ s.cooldownSamples := by
      simp only [List.length_cons] at h
      omega
    obtain ⟨hb, hcd⟩ := push_no_onset sqrtF s x h2
    simp only [anyOnset, hb, Bool.false_or]
    refine ih _ ?_
    rw [hcd]
    simp only [List.length_cons] at h
    omega

/-- A reported onset re-arms the cooldown to `cooldownMax` and leaves
`cooldownMax` itself unchanged. -/
theorem push_trigger (sqrtF : ℚ → ℚ) (s : OnsetState) (x : ℚ)
    (h : (pushSample sqrtF s x).1 = true) :
    (pushSample sqrtF s x).2.cooldownSamples = s.cooldownMax ∧
      (pushSample sqrtF s x).2.cooldownMax = s.cooldownMax := by
  simp only [pushSample] at h ⊢
  split_ifs at h ⊢ <;> simp_all

/-- C8: once `pushSample` reports an onset, the cooldown is re-armed to
`cooldownMax`, and no call during the following cooldown period (any
sequence of fewer than `cooldownMax` further samples) can report another
onset — two transients closer together than the configured cooldown produce
exactly one onset event. -/
theorem spec_C8 (sqrtF : ℚ → ℚ) (s : OnsetState) (x : ℚ)
    (h : (pushSample sqrtF s x).1 = true) :
    (pushSample sqrtF s x).2.cooldownSamples = s.cooldownMax ∧
    (pushSample sqrtF s x).2.cooldownMax = s.cooldownMax ∧
    ∀ xs : List ℚ, (xs.length : Int) < s.cooldownMax →
      anyOnset sqrtF (pushSample sqrtF s x).2 xs = false := by
  obtain ⟨hcd, hcm⟩ := push_trigger sqrtF s x h
  exact ⟨hcd, hcm, fun xs hlen => anyOnset_cooldown sqrtF xs _ (by rw [hcd]; exact hlen)⟩

/-- A detector state one sample away from a window boundary, primed so that
the next sample triggers an onset (previous RMS 2, incoming sample 4). -/
def onsetW : OnsetState :=
  { prevEnergy := 0, currentEnergy := 2, energyAcc := 0, sampleCount := 0,
    windowSize := 1, adaptiveThreshold := 0, cooldownSamples := 0, cooldownMax := 5 }

/-- Witness for C8: a concrete onset, after which the next three samples
cannot retrigger. -/
theorem spec_C8_witness :
    (pushSample (fun q => q) onsetW 4).1 = true ∧
      anyOnset (fun q => q) (pushSample (fun q => q) onsetW 4).2 [0, 0, 0] = false := by
  have h : (pushSample (fun q => q) onsetW 4).1 = true := by
    norm_num [pushSample, onsetW]
  exact ⟨h, (spec_C8 (fun q => q) onsetW 4 h).2.2 [0, 0, 0] (by norm_num [onsetW])⟩

/-! ## C7 — YIN fallback / rejection, and the downstream pitch hold -/

/-- When no lag in `[tau, maxLag)` dips below the 0.15 threshold, the
threshold scan reports `-1`. -/
theorem thresholdScan_none (s : YINState) (maxLag : Nat) :
    ∀ (fuel tau : Nat), maxLag - tau ≤ fuel →
      (∀ u, tau ≤ u → u < maxLag → ¬ cmndAt s u < 3/20) →
      thresholdScan s maxLag tau = -1 := by
  intro fuel
  induction fuel with
  | zero =>
    intro tau hf h
    rw [thresholdScan, dif_neg (by omega)]
  | succ n ih =>
    intro tau hf h
    rw [thresholdScan]
    by_cases h1 : tau < maxLag
    · rw [dif_pos h1, if_neg (h tau le_rfl h1)]
      exact ih (tau + 1) (by omega) (fun u hu1 hu2 => h u (by omega) hu2)
    · rw [dif_neg h1]

/-- The fallback loop computes a running minimum: its result is no larger
than the seed, bounds every `cmnd` value in the remaining range, and either
nothing was updated (seed returned) or the returned index lies in the range
and attains the returned minimum. -/
theorem fallbackScan_spec (s : YINState) (maxLag : Nat) :
    ∀ (fuel tau : Nat) (minVal : ℚ) (best : Int), maxLag - tau ≤ fuel →
      (fallbackScan s maxLag tau minVal best).1 ≤ minVal ∧
      (∀ u, tau ≤ u → u < maxLag →
        (fallbackScan s maxLag tau minVal best).1 ≤ cmndAt s u) ∧
      (fallbackScan s maxLag tau minVal best = (minVal, best) ∨
        ∃ u : Nat, tau ≤ u ∧ u < maxLag ∧
          (fallbackScan s maxLag tau minVal best).2 = (u : Int) ∧
          cmndAt s u = (fallbackScan s maxLag tau minVal best).1) := by
  intro fuel
  induction fuel with
  | zero =>
    intro tau minVal best hf
    rw [fallbackScan, dif_neg (by omega)]
    exact ⟨le_rfl, fun u hu1 hu2 => absurd hu2 (by omega), Or.inl rfl⟩
  | succ n ih =>
    intro tau minVal best hf
    by_cases h1 : tau < maxLag
    · by_cases h2 : cmndAt s tau < minVal
      · rw [show fallbackScan s maxLag tau minVal best =
            fallbackScan s maxLag (tau + 1) (cmndAt s tau) (tau : Int) from by
          rw [fallbackScan, dif_pos h1, if_pos h2]]
        obtain ⟨ha, hb, hc⟩ := ih (tau + 1) (cmndAt s tau) (tau : Int) (by omega)
        refine ⟨le_trans ha (le_of_lt h2), ?_, ?_⟩
        · intro u hu1 hu2
          rcases Nat.eq_or_lt_of_le hu1 with rfl | hu
          · exact ha
          · exact hb u (by omega) hu2
        · rcases hc with hc | ⟨u, hu1, hu2, hu3, hu4⟩
          · exact Or.inr ⟨tau, le_rfl, h1, by rw [hc], by rw [hc]⟩
          · exact Or.inr ⟨u, by omega, hu2, hu3, hu4⟩
      · rw [show fallbackScan s maxLag tau minVal best =
            fallbackScan s maxLag (tau + 1) minVal best from by
          rw [fallbackScan, dif_pos h1, if_neg h2]]
        obtain ⟨ha, hb, hc⟩ := ih (tau + 1) minVal best (by omega)
        refine ⟨ha, ?_, ?_⟩
        · intro u hu1 hu2
          rcases Nat.eq_or_lt_of_le hu1 with rfl | hu
          · exact le_trans ha (not_lt.mp h2)
          · exact hb u (by omega) hu2
        · rcases hc with hc | ⟨u, hu1, hu2, hu3, hu4⟩
          · exact Or.inl hc
          · exact Or.inr ⟨u, by omega, hu2, hu3, hu4⟩
    · rw [fallbackScan, dif_neg h1]
      exact ⟨le_rfl, fun u hu1 hu2 => absurd hu2 (by omega), Or.inl rfl⟩

/-- C7: (i) in an analysis pass where no lag candidate in the searched range
has a CMND value below the 0.15 threshold, the global minimum over the
range is used instead, and if even that minimum exceeds the 0.5 confidence
bound the estimate is rejected outright — confidence is set to 0 and the
previously detected frequency is retained unchanged; when the minimum is
acceptable, the selected lag is a true global argmin of the CMND curve over
the searched range and the pass finishes from it.  (ii) Downstream,
`currentPitchV` advances only on a fresh analysis whose confidence exceeds
the 0.3 floor while the gate is open and the frequency is inside
(20, 5000) Hz; in every other case the previous pitch is held. -/
theorem spec_C7 :
    (∀ s : YINState,
      (∀ tau, tau < maxLagOf s → minLagOf s ≤ tau → ¬ cmndAt s tau < 3/20) →
        ((1/2 < (fbResult s).1 →
          (analyze s).confidence = 0 ∧ (analyze s).detectedFreq = s.detectedFreq) ∧
        ((fbResult s).1 ≤ 1/2 →
          ∃ b : Nat, (fbResult s).2 = (b : Int) ∧ minLagOf s ≤ b ∧ b < maxLagOf s ∧
            cmndAt s b = (fbResult s).1 ∧
            (∀ tau, tau < maxLagOf s → minLagOf s ≤ tau →
              (fbResult s).1 ≤ cmndAt s tau) ∧
            analyze s = finishAnalyze s (b : Int)))) ∧
    (∀ (voct : ℚ → ℚ) (np gate : Bool) (conf freq cur : ℚ),
      ((np = true ∧ 3/10 < conf ∧ gate = true ∧ 20 < freq ∧ freq < 5000) →
        voicePitchStep voct np conf gate freq cur = voct freq) ∧
      (¬ (np = true ∧ 3/10 < conf ∧ gate = true) →
        voicePitchStep voct np conf gate freq cur = cur) ∧
      ((np = true ∧ 3/10 < conf ∧ gate = true ∧ ¬ (20 < freq ∧ freq < 5000)) →
        voicePitchStep voct np conf gate freq cur = cur)) := by
  constructor
  · intro s hnd
    have hts : thresholdScan s (maxLagOf s) (minLagOf s) = -1 :=
      thresholdScan_none s (maxLagOf s) (maxLagOf s) (minLagOf s) (by omega)
        (fun u hu1 hu2 => hnd u hu2 hu1)
    obtain ⟨ha, hb, hc⟩ :=
      fallbackScan_spec s (maxLagOf s) (maxLagOf s) (minLagOf s) 1 (-1) (by omega)
    constructor
    · intro hfb
      simp only [analyze]
      rw [hts, if_pos (by norm_num : (-1 : Int) < 0), if_pos hfb]
      exact ⟨rfl, rfl⟩
    · intro hfb
      rcases hc with hc | ⟨u, hu1, hu2, hu3, hu4⟩
      · exfalso
        have h1 : (fbResult s).1 = 1 := by
          rw [show fbResult s = ((1 : ℚ), (-1 : Int)) from hc]
        rw [h1] at hfb
        norm_num at hfb
      · refine ⟨u, hu3, hu1, hu2, hu4, fun tau h1 h2 => hb tau h2 h1, ?_⟩
        simp only [analyze]
        rw [hts, if_pos (by norm_num : (-1 : Int) < 0),
          if_neg (not_lt.mpr hfb)]
        rw [show (fbResult s).2 = (u : Int) from hu3]
  · intro voct np gate conf freq cur
    refine ⟨?_, ?_, ?_⟩
    · intro h
      unfold voicePitchStep
      rw [if_pos ⟨h.1, h.2.1, h.2.2.1⟩, if_pos ⟨h.2.2.2.1, h.2.2.2.2⟩]
    · intro h
      unfold voicePitchStep
      rw [if_neg h]
    · intro h
      unfold voicePitchStep
      rw [if_pos ⟨h.1, h.2.1, h.2.2.1⟩, if_neg h.2.2.2]

/-- A tiny YIN state (8-sample window at 44.1 kHz): the searched lag range
`[minLag, maxLag) = [8, 3)` is empty, so no candidate dips below threshold,
the fallback minimum stays at its seed 1 > 0.5, and the pass must reject,
retaining the previous `detectedFreq = 7`. -/
def yinW : YINState :=
  { buffer := [], writePos := 0, bufferSize := 8,
    detectedFreq := 7, confidence := 9/10, sampleRate := 44100 }

theorem yinW_minLag : minLagOf yinW = 8 := by
  show max 2 (cTrunc ((44100 : ℚ) / 5000)).toNat = 8
  norm_num [cTrunc]
  decide

theorem yinW_maxLag : maxLagOf yinW = 3 := by
  show min (8 / 2 - 1) (cTrunc ((44100 : ℚ) / 30)).toNat = 3
  norm_num [cTrunc]

/-- Witness for C7: rejection retains the previous frequency at `yinW`, and
the downstream hold at concrete inputs. -/
theorem spec_C7_witness :
    ((analyze yinW).confidence = 0 ∧ (analyze yinW).detectedFreq = 7) ∧
    voicePitchStep (fun q => q) true (2/5) true 100 3 = 100 ∧
    voicePitchStep (fun q => q) false (2/5) true 100 3 = 3 := by
  have hnd : ∀ tau, tau < maxLagOf yinW → minLagOf yinW ≤ tau →
      ¬ cmndAt yinW tau < 3/20 := by
    intro tau h1 h2
    rw [yinW_maxLag] at h1
    rw [yinW_minLag] at h2
    omega
  have hfb : 1/2 < (fbResult yinW).1 := by
    unfold fbResult
    rw [yinW_minLag, yinW_maxLag, fallbackScan, dif_neg (by omega)]
    norm_num
  refine ⟨(spec_C7.1 yinW hnd).1 hfb, ?_, ?_⟩
  · exact (spec_C7.2 (fun q => q) true true (2/5) 100 3).1
      ⟨rfl, by norm_num, rfl, by norm_num, by norm_num⟩
  · exact (spec_C7.2 (fun q => q) false true (2/5) 100 3).2.1 (by simp)

/-! ## C5 — snapshot channel atomicity (corrected) -/

/-- The writer's phase with respect to a single queued write: equal to its
program counter while the write is pending, 5 once the queue has drained. -/
def wphase (c : DBConfig) : Nat :=
  if c.pending = [] then 5 else c.wpc

/-- Invariant of one `read` racing one `write v` from the initial state
(published value `oldp` in slot 0, garbage `g` in slot 1): tracks writer
progress, slot contents, and what the reader can have observed. -/
def DBInv (oldp g v : Nat × Nat) (c : DBConfig) : Prop :=
  (c.pending = [v] ∨ c.pending = []) ∧
  c.wpc ≤ 4 ∧
  c.rpc ≤ 3 ∧
  (1 ≤ wphase c → c.wreg = 1) ∧
  c.st.active = (if 4 ≤ wphase c then 1 else 0) ∧
  c.st.slot0 = oldp ∧
  c.st.slot1.1 = (if 2 ≤ wphase c then v.1 else g.1) ∧
  c.st.slot1.2 = (if 3 ≤ wphase c then v.2 else g.2) ∧
  (1 ≤ c.rpc → c.ridx = 0 ∨ (c.ridx = 1 ∧ 4 ≤ wphase c)) ∧
  (2 ≤ c.rpc → (c.ridx = 0 → c.ra = oldp.1) ∧ (c.ridx = 1 → c.ra = v.1)) ∧
  (3 ≤ c.rpc → (c.ridx = 0 → c.rb = oldp.2) ∧ (c.ridx = 1 → c.rb = v.2))

theorem DBInv_stepW (oldp g v : Nat × Nat) (c : DBConfig) (h : DBInv oldp g v c) :
    DBInv oldp g v (stepW c) := by
  obtain ⟨st, pending, wpc, wreg, rpc, ridx, ra, rb⟩ := c
  obtain ⟨s0, s1, act, ver⟩ := st
  obtain ⟨hp, hw4, hr3, hreg, hact, hs0, hs11, hs12, hri, hra, hrb⟩ := h
  rcases hp with hp | hp <;> subst hp
  · rcases wpc with _ | _ | _ | _ | wpc <;>
      simp_all [stepW, wphase, DBInv, DBShared.setFst, DBShared.setSnd]
  · simp_all [stepW, wphase, DBInv]

theorem DBInv_stepR (oldp g v : Nat × Nat) (c : DBConfig) (h : DBInv oldp g v c) :
    DBInv oldp g v (stepR c) := by
  obtain ⟨st, pending, wpc, wreg, rpc, ridx, ra, rb⟩ := c
  obtain ⟨s0, s1, act, ver⟩ := st
  obtain ⟨hp, hw4, hr3, hreg, hact, hs0, hs11, hs12, hri, hra, hrb⟩ := h
  rcases rpc with _ | _ | _ | rpc <;>
    simp_all [stepR, wphase, DBInv, DBShared.slotAt]
  all_goals
    first
    | omega
    | (intro h1 h2
       exfalso
       rcases hri with hri | ⟨hri2, hph⟩ <;> omega)

theorem DBInv_run (oldp g v : Nat × Nat) :
    ∀ (sched : List Bool) (c : DBConfig), DBInv oldp g v c →
      DBInv oldp g v (runDB sched c) := by
  intro sched
  induction sched with
  | nil => intro c h; exact h
  | cons b rest ih =>
    intro c h
    simp only [runDB, List.foldl_cons]
    cases b
    · exact ih (stepR c) (DBInv_stepR oldp g v c h)
    · exact ih (stepW c) (DBInv_stepW oldp g v c h)

theorem DBInv_init (oldp g v : Nat × Nat) : DBInv oldp g v (dbInit oldp g [v]) := by
  simp [DBInv, wphase, dbInit]

/-- The schedule exhibiting a torn read: the reader loads the index and the
first half of slot 0, then the writer completes two full writes (the second
lands in slot 0), then the reader loads the second half of slot 0. -/
def tornSched : List Bool :=
  [false, false, true, true, true, true, true, true, true, true, true, true, false]

/-- Counterexample to C5 as stated: with published value (1,2) and the two
writes (3,4), (5,6) interleaving a single read as per `tornSched`, the read
completes with the value (1,6) — a mix of the old value and the second
write, equal to none of the fully-written values.  (The model interleaves
the individual shared accesses of `DoubleBuffer::write`/`read` under
sequential consistency; the release/acquire code is no stronger.) -/
theorem spec_C5_cex :
    (runDB tornSched (dbInit (1, 2) (0, 0) [(3, 4), (5, 6)])).rpc = 3 ∧
    ((runDB tornSched (dbInit (1, 2) (0, 0) [(3, 4), (5, 6)])).ra,
     (runDB tornSched (dbInit (1, 2) (0, 0) [(3, 4), (5, 6)])).rb) = (1, 6) ∧
    ¬ (((1 : Nat), (6 : Nat)) = (1, 2) ∨ ((1 : Nat), (6 : Nat)) = (3, 4) ∨
        ((1 : Nat), (6 : Nat)) = (5, 6)) := by
  decide

/-- C5 (amended): the write publishes by copying into the inactive slot,
then flipping the active index, then bumping the version, in that order
(the step relation `stepW`); consequently a read that overlaps at most one
concurrent write is never torn — for every schedule interleaving one
`write v` with one `read` from a state publishing `oldp`, a completed read
returns either `oldp` or `v`, both fully written.  (With two or more writes
during one read, a mix is possible — see the counterexample.) -/
theorem spec_C5 (sched : List Bool) (oldp g v : Nat × Nat)
    (h : (runDB sched (dbInit oldp g [v])).rpc = 3) :
    ((runDB sched (dbInit oldp g [v])).ra, (runDB sched (dbInit oldp g [v])).rb) = oldp ∨
    ((runDB sched (dbInit oldp g [v])).ra, (runDB sched (dbInit oldp g [v])).rb) = v := by
  obtain ⟨-, -, -, -, -, -, -, -, hri, hra, hrb⟩ :=
    DBInv_run oldp g v sched (dbInit oldp g [v]) (DBInv_init oldp g v)
  rcases hri (by omega) with hid | ⟨hid, -⟩
  · left
    rw [(hra (by omega)).1 hid, (hrb (by omega)).1 hid]
  · right
    rw [(hra (by omega)).2 hid, (hrb (by omega)).2 hid]

/-- Witness for C5 (amended): an uncontended read returns the published
value. -/
theorem spec_C5_witness :
    ((runDB [false, false, false] (dbInit (1, 2) (0, 0) [(3, 4)])).ra,
     (runDB [false, false, false] (dbInit (1, 2) (0, 0) [(3, 4)])).rb) = (1, 2) ∨
    ((runDB [false, false, false] (dbInit (1, 2) (0, 0) [(3, 4)])).ra,
     (runDB [false, false, false] (dbInit (1, 2) (0, 0) [(3, 4)])).rb) = (3, 4) :=
  spec_C5 [false, false, false] (1, 2) (0, 0) (3, 4) (by decide)
